import Mathlib

/-!
Verification of `lib/xlat_tables_v2/aarch32/xlat_tables_arch.c`, the AArch32
backend of the translation-table library: granule queries, the execute-never
descriptor mask, TLB invalidation traces, and the `setup_mmu_cfg` register-image
builder (MAIR0, TTBCR, TTBR0).

Machine integers are embedded as `Nat` with explicit `% 2 ^ w` where overflow
can occur.  The hardware barrier/TLBI primitives (extern assembly helpers) are
embedded as trace events: each maintenance function returns the list of
primitive operations it issues, in program order.  A failed `assert` halts the
program with no observable output, so `setup_mmu_cfg` returns `Option`: `none`
models the assertion-failure halt and `some` carries the three register values
written to `params[MMU_CFG_MAIR]`, `params[MMU_CFG_TCR]`, `params[MMU_CFG_TTBR0]`.
-/

namespace XlatAarch32

/-- Modelled from the spec: `PAGE_SIZE_4KB` comes from a header not under
`src/`; the spec fixes the single supported granule at 4096 bytes. -/
def PAGE_SIZE_4KB : Nat := 4096

/-- `UINT32_MAX`, the largest 32-bit unsigned value. -/
def UINT32_MAX : Nat := 4294967295

/-- Modelled from the spec: long-descriptor (extended address) enable bit of
TTBCR, from the architecture header not under `src/`. -/
def TTBCR_EAE_BIT : Nat := 2 ^ 31

/-- Modelled from the spec: TTBCR bit disabling table walks through TTBR1,
from the architecture header not under `src/`. -/
def TTBCR_EPD1_BIT : Nat := 2 ^ 23

/-- Modelled from the spec: non-shareable SH0 encoding (bits 13:12 = 0b00),
from the architecture header not under `src/`. -/
def TTBCR_SH0_NON_SHAREABLE : Nat := 0

/-- Modelled from the spec: inner-shareable SH0 encoding (bits 13:12 = 0b11),
from the architecture header not under `src/`. -/
def TTBCR_SH0_INNER_SHAREABLE : Nat := 3 * 2 ^ 12

/-- Modelled from the spec: outer non-cacheable ORGN0 encoding (bits 11:10 =
0b00), from the architecture header not under `src/`. -/
def TTBCR_RGN0_OUTER_NC : Nat := 0

/-- Modelled from the spec: outer write-back write-allocate ORGN0 encoding
(bits 11:10 = 0b01), from the architecture header not under `src/`. -/
def TTBCR_RGN0_OUTER_WBA : Nat := 2 ^ 10

/-- Modelled from the spec: inner non-cacheable IRGN0 encoding (bits 9:8 =
0b00), from the architecture header not under `src/`. -/
def TTBCR_RGN0_INNER_NC : Nat := 0

/-- Modelled from the spec: inner write-back write-allocate IRGN0 encoding
(bits 9:8 = 0b01), from the architecture header not under `src/`. -/
def TTBCR_RGN0_INNER_WBA : Nat := 2 ^ 8

/-- Modelled from the spec: the common-translation-table (CnP) bit of TTBR0
(bit 0), from the architecture header not under `src/`. -/
def TTBR_CNP_BIT : Nat := 1

/-- Modelled from the spec: the table-walk-memory-is-non-cacheable
configuration flag, a single bit from `xlat_tables_v2.h` (not under `src/`). -/
def XLAT_TABLE_NC : Nat := 2

/-- Modelled from the spec: `MAIR0_ATTR_SET(attr, index)` places an 8-bit
memory-attribute encoding at attribute-table index `index`; from the
architecture header not under `src/`. -/
def MAIR0_ATTR_SET (attr index : Nat) : Nat := attr <<< (index <<< 3)

/-- Modelled from the spec: device-memory attribute encoding, from the
translation-table definitions header not under `src/`. -/
def ATTR_DEVICE : Nat := 0x4

/-- Modelled from the spec: inner/outer write-back write-allocate non-transient
normal-memory attribute encoding, from a header not under `src/`. -/
def ATTR_IWBWA_OWBWA_NTR : Nat := 0xff

/-- Modelled from the spec: normal non-cacheable attribute encoding, from a
header not under `src/`. -/
def ATTR_NON_CACHEABLE : Nat := 0x44

/-- Modelled from the spec: attribute-table index of the device encoding. -/
def ATTR_DEVICE_INDEX : Nat := 1

/-- Modelled from the spec: attribute-table index of the write-back
write-allocate encoding. -/
def ATTR_IWBWA_OWBWA_NTR_INDEX : Nat := 0

/-- Modelled from the spec: attribute-table index of the non-cacheable
encoding. -/
def ATTR_NON_CACHEABLE_INDEX : Nat := 2

/-- Modelled from the spec: `UPPER_ATTRS(x)` places a 3-bit field into the
upper attributes (bits 54:52) of a long-descriptor entry; from a header not
under `src/`. -/
def UPPER_ATTRS (x : Nat) : Nat := (x &&& 0x7) <<< 52

/-- Modelled from the spec: the execute-never bit within the upper-attribute
field, from a header not under `src/`. -/
def XN : Nat := 1 <<< 2

/-- Modelled from the spec: `TLBI_ADDR(x)` masks a virtual address down to the
page-aligned form taken by the TLBI operand; from the architecture header not
under `src/`. -/
def TLBI_ADDR (va : Nat) : Nat := (va >>> 0) &&& 0xFFFFF000

/-- Fuel-indexed count of trailing zero bits; `fuel` bounds the recursion
depth (64 suffices for any value of a 64-bit operand). -/
def ctzllAux : Nat → Nat → Nat
  | 0, _ => 0
  | fuel + 1, n => if n % 2 = 1 ∨ n = 0 then 0 else 1 + ctzllAux fuel (n / 2)

/-- `__builtin_ctzll`: trailing zero bits of a nonzero 64-bit value.  The C
builtin is undefined at 0; the guarded calls in this file never reach 0, and
the arbitrary value returned at 0 here is never relied upon. -/
def ctzll (n : Nat) : Nat := ctzllAux 64 n

/-- Modelled from the spec: `IS_POWER_OF_TWO` from `utils_def.h` (not under
`src/`), the usual bit trick `(x & (x - 1)) == 0`. -/
def IS_POWER_OF_TWO (x : Nat) : Bool := (x &&& (x - 1)) == 0

/-- Modelled from the spec: `CHECK_VIRT_ADDR_SPACE_SIZE` from a header not
under `src/`.  Per the spec the virtual-address-space size must be a nonzero
in-range exact power of two; on this 32-bit backend the range tops out at the
full native width `2 ^ 32`. -/
def CHECK_VIRT_ADDR_SPACE_SIZE (size : Nat) : Bool :=
  decide (1 ≤ size) && decide (size ≤ 2 ^ 32) && IS_POWER_OF_TWO size

/-- The three register values produced by `setup_mmu_cfg`, i.e. the
`params[MMU_CFG_MAIR]`, `params[MMU_CFG_TCR]` and `params[MMU_CFG_TTBR0]`
slots written at the end of the function. -/
structure MmuCfg where
  mair : Nat
  tcr : Nat
  ttbr0 : Nat
deriving DecidableEq, Repr

/-- The local `mair` of `setup_mmu_cfg`: the three fixed attribute encodings
placed at their fixed MAIR0 indices. -/
def setup_mair : Nat :=
  MAIR0_ATTR_SET ATTR_DEVICE ATTR_DEVICE_INDEX |||
    MAIR0_ATTR_SET ATTR_IWBWA_OWBWA_NTR ATTR_IWBWA_OWBWA_NTR_INDEX |||
    MAIR0_ATTR_SET ATTR_NON_CACHEABLE ATTR_NON_CACHEABLE_INDEX

/-- The local `ttbcr` of `setup_mmu_cfg` after all updates: EAE and EPD1, then
the T0SZ field when `max_va` is below the full 32-bit width, then the walk
shareability/cacheability encoding selected by the `XLAT_TABLE_NC` flag.
All operands fit in 32 bits, so the `uint32_t` arithmetic never truncates. -/
def setup_ttbcr (flags max_va : Nat) : Nat :=
  let ttbcr1 := TTBCR_EAE_BIT ||| TTBCR_EPD1_BIT
  let ttbcr2 :=
    if max_va ≠ UINT32_MAX then
      ttbcr1 ||| (32 - ctzll ((max_va + 1) % 2 ^ 32))
    else
      ttbcr1
  if flags &&& XLAT_TABLE_NC ≠ 0 then
    ttbcr2 ||| (TTBCR_SH0_NON_SHAREABLE ||| TTBCR_RGN0_OUTER_NC ||| TTBCR_RGN0_INNER_NC)
  else
    ttbcr2 ||| (TTBCR_SH0_INNER_SHAREABLE ||| TTBCR_RGN0_OUTER_WBA ||| TTBCR_RGN0_INNER_WBA)

/-- The local `ttbr0` of `setup_mmu_cfg`: the raw base-table pointer, with the
CnP bit OR-ed in exactly when the build targets ARMv8.2 or later
(`ARM_ARCH_AT_LEAST(8, 2)`). -/
def setup_ttbr0 (arm_arch_at_least_8_2 : Bool) (base_table : Nat) : Nat :=
  if arm_arch_at_least_8_2 then base_table ||| TTBR_CNP_BIT else base_table

/-- `setup_mmu_cfg`.  `arm_arch_at_least_8_2` models the compile-time
`ARM_ARCH_AT_LEAST(8, 2)` test and `is_in_secure` the `IS_IN_SECURE()` probe
of the SCR register.  `none` models an assertion-failure halt (the `assert`
calls run before any write to `params`, so a halt produces no output);
`some` carries the three `params` slots.  `max_pa` and `xlat_regime` are
accepted and ignored, as in the source (`xlat_regime` is `__unused` and
`max_pa` is never read). -/
def setup_mmu_cfg (arm_arch_at_least_8_2 is_in_secure : Bool)
    (flags base_table max_pa max_va xlat_regime : Nat) : Option MmuCfg :=
  if is_in_secure = false then
    none
  else if max_va ≠ UINT32_MAX ∧
      CHECK_VIRT_ADDR_SPACE_SIZE ((max_va + 1) % 2 ^ 32) = false then
    none
  else
    some ⟨setup_mair, setup_ttbcr flags max_va, setup_ttbr0 arm_arch_at_least_8_2 base_table⟩

/-- The truncation (T0SZ) field of a TTBCR value: the bits below bit 8, the
lowest bit used by the walk-attribute fields.  In the produced word only the
T0SZ value ever occupies these bits. -/
def TCR_T0SZ_FIELD (tcr : Nat) : Nat := tcr % 2 ^ 8

/-- The shareability/cacheability walk-attribute field of a TTBCR value:
SH0 (13:12), ORGN0 (11:10) and IRGN0 (9:8). -/
def TCR_WALK_ATTR_FIELD (tcr : Nat) : Nat := tcr / 2 ^ 8 % 2 ^ 6

/-- `xlat_arch_is_granule_size_supported`: 1 iff the size is the 4 KiB
granule of the long-descriptor format. -/
def xlat_arch_is_granule_size_supported (size : Nat) : Nat :=
  if size = PAGE_SIZE_4KB then 1 else 0

/-- `xlat_arch_get_max_supported_granule_size`. -/
def xlat_arch_get_max_supported_granule_size : Nat := PAGE_SIZE_4KB

/-- `xlat_arch_regime_get_xn_desc`: the regime argument is `__unused`. -/
def xlat_arch_regime_get_xn_desc (xlat_regime : Nat) : Nat := UPPER_ATTRS XN

/-- Modelled from the spec: the barrier/TLBI assembly primitives
(`arch_helpers.h`, not under `src/`) are trace events, as the spec's
instrumented-harness note prescribes for observing ordering. -/
inductive XlatOp where
  | bpiallis : XlatOp
  | dsbish : XlatOp
  | isb : XlatOp
  | dsbishst : XlatOp
  | tlbimvaais : Nat → XlatOp
deriving DecidableEq, Repr

/-- `xlat_arch_tlbi_va` as the trace of primitives it issues, in program
order: the store-completion barrier, then the broadcast inner-shareable
invalidate of the page containing `va`. -/
def xlat_arch_tlbi_va (va xlat_regime : Nat) : List XlatOp :=
  [XlatOp.dsbishst, XlatOp.tlbimvaais (TLBI_ADDR va)]

/-- `xlat_arch_tlbi_va_sync` as the trace of primitives it issues, in program
order. -/
def xlat_arch_tlbi_va_sync : List XlatOp :=
  [XlatOp.bpiallis, XlatOp.dsbish, XlatOp.isb]

/-! ## Helper lemmas -/

theorem ctzllAux_two_pow : ∀ fuel k : Nat, k < fuel → ctzllAux fuel (2 ^ k) = k := by
  intro fuel
  induction fuel with
  | zero => intro k hk; exact absurd hk (Nat.not_lt_zero k)
  | succ f ih =>
    intro k hk
    cases k with
    | zero => norm_num [ctzllAux]
    | succ k2 =>
      have hpos : (0 : Nat) < 2 ^ (k2 + 1) := Nat.two_pow_pos _
      have hmod : 2 ^ (k2 + 1) % 2 = 0 := by
        rw [Nat.pow_succ]; exact Nat.mul_mod_left _ 2
      have hdiv : 2 ^ (k2 + 1) / 2 = 2 ^ k2 := by
        rw [Nat.pow_succ]; omega
      show (if 2 ^ (k2 + 1) % 2 = 1 ∨ 2 ^ (k2 + 1) = 0 then 0
        else 1 + ctzllAux f (2 ^ (k2 + 1) / 2)) = k2 + 1
      have hne : ¬(2 ^ (k2 + 1) % 2 = 1 ∨ 2 ^ (k2 + 1) = 0) := by omega
      have hih : ctzllAux f (2 ^ k2) = k2 := ih k2 (by omega)
      rw [if_neg hne, hdiv, hih]
      omega

theorem ctzll_two_pow (k : Nat) (hk : k < 64) : ctzll (2 ^ k) = k :=
  ctzllAux_two_pow 64 k hk

theorem CHECK_two_pow (k : Nat) (hk : k ≤ 32) :
    CHECK_VIRT_ADDR_SPACE_SIZE (2 ^ k) = true := by
  have h1 : 2 ^ k &&& (2 ^ k - 1) = 0 := by
    have := Nat.and_pow_two_sub_one_eq_mod (2 ^ k) k
    rw [this, Nat.mod_self]
  have h2 : (1 : Nat) ≤ 2 ^ k := Nat.one_le_two_pow
  have h3 : (2 : Nat) ^ k ≤ 4294967296 := le_trans
    (Nat.pow_le_pow_right (by norm_num) hk) (by norm_num)
  simp [CHECK_VIRT_ADDR_SPACE_SIZE, IS_POWER_OF_TWO, h1, h2, h3]

theorem lor_eq_add_of (c m t : Nat) (hc : c % 2 ^ m = 0) (ht : t < 2 ^ m) :
    c ||| t = c + t := by
  obtain ⟨a, ha⟩ := Nat.dvd_of_mod_eq_zero hc
  subst ha
  exact (Nat.mul_add_lt_is_or ht a).symm

theorem ttbcr_nc_t (t : Nat) (ht : t < 256) :
    ((2 ^ 31 ||| 2 ^ 23) ||| t) ||| (0 ||| 0 ||| 0) = 2155872256 + 0 + t := by
  have h1 : ((0 : Nat) ||| 0 ||| 0) = 0 := by decide
  have h2 : ((2 : Nat) ^ 31 ||| 2 ^ 23) = 2155872256 := by decide
  rw [h1, Nat.or_zero, h2]
  have h3 := lor_eq_add_of 2155872256 8 t (by norm_num) (by omega)
  omega

theorem ttbcr_wb_t (t : Nat) (ht : t < 256) :
    ((2 ^ 31 ||| 2 ^ 23) ||| t) ||| (3 * 2 ^ 12 ||| 2 ^ 10 ||| 2 ^ 8) =
      2155872256 + 13568 + t := by
  have h1 : ((3 * 2 ^ 12 : Nat) ||| 2 ^ 10 ||| 2 ^ 8) = 13568 := by decide
  have h2 : ((2 : Nat) ^ 31 ||| 2 ^ 23) = 2155872256 := by decide
  rw [h1, h2, Nat.or_assoc, Nat.or_comm t 13568, ← Nat.or_assoc]
  have h3 : (2155872256 : Nat) ||| 13568 = 2155885824 := by decide
  rw [h3]
  have h4 := lor_eq_add_of 2155885824 8 t (by norm_num) (by omega)
  omega

/-- Closed form for the TTBCR word built by `setup_mmu_cfg`: the fixed EAE and
EPD1 bits, plus the flag-selected walk-attribute encoding, plus the T0SZ
value (the bit fields are disjoint, so the ORs add). -/
theorem setup_ttbcr_closed (flags max_va : Nat) :
    setup_ttbcr flags max_va =
      2155872256
        + (if flags &&& XLAT_TABLE_NC ≠ 0 then 0 else 13568)
        + (if max_va ≠ UINT32_MAX then 32 - ctzll ((max_va + 1) % 2 ^ 32) else 0) := by
  have hct : 32 - ctzll ((max_va + 1) % 2 ^ 32) < 256 := by omega
  show (if flags &&& XLAT_TABLE_NC ≠ 0 then
      (if max_va ≠ UINT32_MAX then
        (TTBCR_EAE_BIT ||| TTBCR_EPD1_BIT) ||| (32 - ctzll ((max_va + 1) % 2 ^ 32))
      else TTBCR_EAE_BIT ||| TTBCR_EPD1_BIT) |||
        (TTBCR_SH0_NON_SHAREABLE ||| TTBCR_RGN0_OUTER_NC ||| TTBCR_RGN0_INNER_NC)
    else
      (if max_va ≠ UINT32_MAX then
        (TTBCR_EAE_BIT ||| TTBCR_EPD1_BIT) ||| (32 - ctzll ((max_va + 1) % 2 ^ 32))
      else TTBCR_EAE_BIT ||| TTBCR_EPD1_BIT) |||
        (TTBCR_SH0_INNER_SHAREABLE ||| TTBCR_RGN0_OUTER_WBA ||| TTBCR_RGN0_INNER_WBA)) = _
  by_cases hf : flags &&& XLAT_TABLE_NC ≠ 0
  · rw [if_pos hf, if_pos hf]
    by_cases hv : max_va ≠ UINT32_MAX
    · rw [if_pos hv, if_pos hv]
      simp only [TTBCR_EAE_BIT, TTBCR_EPD1_BIT, TTBCR_SH0_NON_SHAREABLE,
        TTBCR_RGN0_OUTER_NC, TTBCR_RGN0_INNER_NC]
      exact ttbcr_nc_t _ hct
    · rw [if_neg hv, if_neg hv]
      simp only [TTBCR_EAE_BIT, TTBCR_EPD1_BIT, TTBCR_SH0_NON_SHAREABLE,
        TTBCR_RGN0_OUTER_NC, TTBCR_RGN0_INNER_NC]
      decide
  · rw [if_neg hf, if_neg hf]
    by_cases hv : max_va ≠ UINT32_MAX
    · rw [if_pos hv, if_pos hv]
      simp only [TTBCR_EAE_BIT, TTBCR_EPD1_BIT, TTBCR_SH0_INNER_SHAREABLE,
        TTBCR_RGN0_OUTER_WBA, TTBCR_RGN0_INNER_WBA]
      exact ttbcr_wb_t _ hct
    · rw [if_neg hv, if_neg hv]
      simp only [TTBCR_EAE_BIT, TTBCR_EPD1_BIT, TTBCR_SH0_INNER_SHAREABLE,
        TTBCR_RGN0_OUTER_WBA, TTBCR_RGN0_INNER_WBA]
      decide

/-- Inversion: a successful `setup_mmu_cfg` call returns exactly the record
built from its three locals. -/
theorem setup_mmu_cfg_inv (a8 : Bool) (flags base_table max_pa max_va xlat_regime : Nat)
    (cfg : MmuCfg)
    (h : setup_mmu_cfg a8 true flags base_table max_pa max_va xlat_regime = some cfg) :
    cfg = ⟨setup_mair, setup_ttbcr flags max_va, setup_ttbr0 a8 base_table⟩ := by
  rw [setup_mmu_cfg] at h
  rw [if_neg (by simp)] at h
  by_cases hc : max_va ≠ UINT32_MAX ∧
      CHECK_VIRT_ADDR_SPACE_SIZE ((max_va + 1) % 2 ^ 32) = false
  · rw [if_pos hc] at h
    exact absurd h (by simp)
  · rw [if_neg hc] at h
    exact (Option.some.inj h).symm

/-! ## Claim theorems -/

/-- C2: every call to `xlat_arch_tlbi_va_sync` performs exactly three
primitive operations in this fixed order: the broadcast branch-predictor
invalidate `bpiallis`, then the inner-shareable completion barrier `dsbish`,
then the instruction-synchronization barrier `isb`. -/
theorem c2_tlbi_sync_order :
    xlat_arch_tlbi_va_sync.length = 3 ∧
    xlat_arch_tlbi_va_sync[0]? = some XlatOp.bpiallis ∧
    xlat_arch_tlbi_va_sync[1]? = some XlatOp.dsbish ∧
    xlat_arch_tlbi_va_sync[2]? = some XlatOp.isb ∧
    xlat_arch_tlbi_va_sync = [XlatOp.bpiallis, XlatOp.dsbish, XlatOp.isb] :=
  ⟨rfl, rfl, rfl, rfl, rfl⟩

/-- C3: for every virtual address and regime, `xlat_arch_tlbi_va` issues the
store-completion barrier `dsbishst` strictly before the invalidation, the
invalidation is the broadcast inner-shareable `tlbimvaais` on the masked
address, and nothing (in particular no completion or instruction barrier)
follows it: the trace is exactly those two operations. -/
theorem c3_tlbi_va_order (va xlat_regime : Nat) :
    (xlat_arch_tlbi_va va xlat_regime).length = 2 ∧
    (xlat_arch_tlbi_va va xlat_regime)[0]? = some XlatOp.dsbishst ∧
    (xlat_arch_tlbi_va va xlat_regime)[1]? =
      some (XlatOp.tlbimvaais (TLBI_ADDR va)) ∧
    XlatOp.dsbish ∉ xlat_arch_tlbi_va va xlat_regime ∧
    XlatOp.isb ∉ xlat_arch_tlbi_va va xlat_regime := by
  refine ⟨rfl, rfl, rfl, ?_, ?_⟩ <;> simp [xlat_arch_tlbi_va]

/-- C5: `xlat_arch_is_granule_size_supported s` returns 1 exactly when
`s = 4096`, and `xlat_arch_get_max_supported_granule_size` returns 4096. -/
theorem c5_granule_4k_only :
    (∀ s, xlat_arch_is_granule_size_supported s = 1 ↔ s = 4096) ∧
    xlat_arch_get_max_supported_granule_size = 4096 := by
  refine ⟨fun s => ?_, rfl⟩
  unfold xlat_arch_is_granule_size_supported PAGE_SIZE_4KB
  by_cases h : s = 4096 <;> simp [h]

/-- C9: `xlat_arch_regime_get_xn_desc` returns the same fixed upper-attribute
execute-never mask for every pair of regime arguments. -/
theorem c9_xn_desc_regime_independent (r1 r2 : Nat) :
    xlat_arch_regime_get_xn_desc r1 = xlat_arch_regime_get_xn_desc r2 ∧
    xlat_arch_regime_get_xn_desc r1 = UPPER_ATTRS XN :=
  ⟨rfl, rfl⟩

/-- C10: the `MmuCfg` triple produced by `setup_mmu_cfg` does not depend on
the `max_pa` argument or the `xlat_regime` argument: two calls differing only
in those produce identical results. -/
theorem c10_independent_of_pa_and_regime (a8 sec : Bool)
    (flags base_table mp1 mp2 max_va r1 r2 : Nat) :
    setup_mmu_cfg a8 sec flags base_table mp1 max_va r1 =
      setup_mmu_cfg a8 sec flags base_table mp2 max_va r2 := rfl

/-- C6: `setup_mmu_cfg` writes the raw base-table pointer into TTBR0, with
the common-translation-table (CnP) bit OR-ed in exactly when the compiled
hardware revision is ARMv8.2 or later; on a non-qualifying revision the
scenario-A call with base 0x80000000 yields TTBR0 = 0x80000000. -/
theorem c6_ttbr0_base_and_cnp :
    (∀ (a8 : Bool) (flags base_table max_pa max_va xlat_regime : Nat) (cfg : MmuCfg),
      setup_mmu_cfg a8 true flags base_table max_pa max_va xlat_regime = some cfg →
      cfg.ttbr0 = if a8 then base_table ||| TTBR_CNP_BIT else base_table) ∧
    Option.map MmuCfg.ttbr0
      (setup_mmu_cfg false true 0 0x80000000 (2 ^ 32 - 1) UINT32_MAX 0) =
      some 0x80000000 := by
  constructor
  · intro a8 flags base_table max_pa max_va xlat_regime cfg h
    rw [setup_mmu_cfg_inv a8 flags base_table max_pa max_va xlat_regime cfg h]
    rfl
  · decide

/-- C6 witness: the theorem applied to a concrete non-qualifying call. -/
theorem c6_ttbr0_base_and_cnp_w :
    MmuCfg.ttbr0 ⟨4457727, 2155885824, 2147483648⟩ =
      if false then (2147483648 : Nat) ||| TTBR_CNP_BIT else 2147483648 :=
  c6_ttbr0_base_and_cnp.1 false 0 2147483648 0 4294967295 0
    ⟨4457727, 2155885824, 2147483648⟩ (by decide)

/-- C7: `setup_mmu_cfg` enforces its preconditions by fatal assertion only.
A non-secure caller halts (no output); a `max_va` below the full width whose
successor fails the address-space-size check halts; when the preconditions
hold the call succeeds with a result (no caller-visible error value); and in
the truncation branch the `ctzll` operand is always in `[1, UINT32_MAX]`, so
`ctzll` is never applied to 0. -/
theorem c7_assertions_and_totality (a8 : Bool)
    (flags base_table max_pa max_va xlat_regime : Nat) (hva : max_va < 2 ^ 32) :
    setup_mmu_cfg a8 false flags base_table max_pa max_va xlat_regime = none ∧
    (max_va ≠ UINT32_MAX → CHECK_VIRT_ADDR_SPACE_SIZE (max_va + 1) = false →
      setup_mmu_cfg a8 true flags base_table max_pa max_va xlat_regime = none) ∧
    ((max_va = UINT32_MAX ∨ CHECK_VIRT_ADDR_SPACE_SIZE (max_va + 1) = true) →
      ∃ cfg, setup_mmu_cfg a8 true flags base_table max_pa max_va xlat_regime =
        some cfg) ∧
    (max_va ≠ UINT32_MAX →
      1 ≤ (max_va + 1) % 2 ^ 32 ∧ (max_va + 1) % 2 ^ 32 ≤ UINT32_MAX) := by
  have hU : UINT32_MAX = 4294967295 := rfl
  have h32 : (2 : Nat) ^ 32 = 4294967296 := by norm_num
  refine ⟨?_, ?_, ?_, ?_⟩
  · rw [setup_mmu_cfg, if_pos rfl]
  · intro h1 h2
    have hm : (max_va + 1) % 2 ^ 32 = max_va + 1 := Nat.mod_eq_of_lt (by omega)
    rw [setup_mmu_cfg]
    rw [if_neg (by simp), if_pos ⟨h1, by rw [hm]; exact h2⟩]
  · intro hd
    rw [setup_mmu_cfg, if_neg (by simp), if_neg ?_]
    · exact ⟨_, rfl⟩
    · rintro ⟨hne, hc⟩
      rcases hd with hd | hd
      · exact hne hd
      · have hm : (max_va + 1) % 2 ^ 32 = max_va + 1 := Nat.mod_eq_of_lt (by omega)
        rw [hm, hd] at hc
        exact absurd hc (by simp)
  · intro hne
    have hm : (max_va + 1) % 2 ^ 32 = max_va + 1 := Nat.mod_eq_of_lt (by omega)
    rw [hm, hU]
    omega

/-- C7 witness: the theorem applied to a concrete valid 1 GiB call. -/
theorem c7_assertions_and_totality_w :
    ∃ cfg, setup_mmu_cfg false true 0 0 0 1073741823 0 = some cfg :=
  (c7_assertions_and_totality false 0 0 0 1073741823 0 (by norm_num)).2.2.1
    (Or.inr (by decide))

/-- C8: the MAIR word produced by every successful `setup_mmu_cfg` call is the
packing of the three fixed memory-type encodings (device, write-back
write-allocate, non-cacheable) at their fixed attribute-table indices,
independently of every argument. -/
theorem c8_mair_fixed_packing (a8 : Bool)
    (flags base_table max_pa max_va xlat_regime : Nat) (cfg : MmuCfg)
    (h : setup_mmu_cfg a8 true flags base_table max_pa max_va xlat_regime = some cfg) :
    cfg.mair =
      (MAIR0_ATTR_SET ATTR_DEVICE ATTR_DEVICE_INDEX |||
        MAIR0_ATTR_SET ATTR_IWBWA_OWBWA_NTR ATTR_IWBWA_OWBWA_NTR_INDEX |||
        MAIR0_ATTR_SET ATTR_NON_CACHEABLE ATTR_NON_CACHEABLE_INDEX) := by
  rw [setup_mmu_cfg_inv a8 flags base_table max_pa max_va xlat_regime cfg h]
  rfl

/-- C8 witness: the theorem applied to a concrete call. -/
theorem c8_mair_fixed_packing_w :
    MmuCfg.mair ⟨4457727, 2155885824, 0⟩ =
      (MAIR0_ATTR_SET ATTR_DEVICE ATTR_DEVICE_INDEX |||
        MAIR0_ATTR_SET ATTR_IWBWA_OWBWA_NTR ATTR_IWBWA_OWBWA_NTR_INDEX |||
        MAIR0_ATTR_SET ATTR_NON_CACHEABLE ATTR_NON_CACHEABLE_INDEX) :=
  c8_mair_fixed_packing false 0 0 0 4294967295 0 ⟨4457727, 2155885824, 0⟩ (by decide)

/-- C1: for every call whose virtual address space size is a power of two
`2 ^ k` with `k ≤ 31` (in particular 1 GiB, `max_va = 0x3FFFFFFF`, giving
field 2), the call succeeds and the T0SZ field of the produced TTBCR equals
`32 - k`; when `max_va = UINT32_MAX` (full 2^32 space) the field is 0. -/
theorem c1_t0sz_truncation (a8 : Bool) (flags base_table max_pa xlat_regime : Nat) :
    (∀ k, k ≤ 31 →
      ∃ cfg, setup_mmu_cfg a8 true flags base_table max_pa (2 ^ k - 1) xlat_regime =
          some cfg ∧ TCR_T0SZ_FIELD cfg.tcr = 32 - k) ∧
    (∀ cfg, setup_mmu_cfg a8 true flags base_table max_pa UINT32_MAX xlat_regime =
        some cfg → TCR_T0SZ_FIELD cfg.tcr = 0) ∧
    (∃ cfg, setup_mmu_cfg a8 true flags base_table max_pa 1073741823 xlat_regime =
        some cfg ∧ TCR_T0SZ_FIELD cfg.tcr = 2) := by
  have hU : UINT32_MAX = 4294967295 := rfl
  have h32 : (2 : Nat) ^ 32 = 4294967296 := by norm_num
  have main : ∀ k, k ≤ 31 →
      ∃ cfg, setup_mmu_cfg a8 true flags base_table max_pa (2 ^ k - 1) xlat_regime =
        some cfg ∧ TCR_T0SZ_FIELD cfg.tcr = 32 - k := by
    intro k hk
    have h31 : (2 : Nat) ^ k ≤ 2147483648 :=
      le_trans (Nat.pow_le_pow_right (by norm_num) hk) (by norm_num)
    have hp : (1 : Nat) ≤ 2 ^ k := Nat.one_le_two_pow
    have hne : (2 ^ k - 1 : Nat) ≠ UINT32_MAX := by omega
    have hvs : ((2 ^ k - 1 : Nat) + 1) % 2 ^ 32 = 2 ^ k := by
      rw [Nat.sub_add_cancel hp, Nat.mod_eq_of_lt (by omega)]
    have hchk : CHECK_VIRT_ADDR_SPACE_SIZE ((2 ^ k - 1 + 1) % 2 ^ 32) = true := by
      rw [hvs]; exact CHECK_two_pow k (by omega)
    refine ⟨⟨setup_mair, setup_ttbcr flags (2 ^ k - 1), setup_ttbr0 a8 base_table⟩,
      ?_, ?_⟩
    · rw [setup_mmu_cfg, if_neg (by simp), if_neg (by rw [hchk]; simp)]
    · show TCR_T0SZ_FIELD (setup_ttbcr flags (2 ^ k - 1)) = 32 - k
      rw [setup_ttbcr_closed, if_pos hne, hvs, ctzll_two_pow k (by omega)]
      unfold TCR_T0SZ_FIELD
      by_cases hf : flags &&& XLAT_TABLE_NC ≠ 0
      · rw [if_pos hf]; omega
      · rw [if_neg hf]; omega
  refine ⟨main, ?_, ?_⟩
  · intro cfg h
    rw [setup_mmu_cfg_inv a8 flags base_table max_pa UINT32_MAX xlat_regime cfg h]
    show TCR_T0SZ_FIELD (setup_ttbcr flags UINT32_MAX) = 0
    have hz : (if (UINT32_MAX : Nat) ≠ UINT32_MAX then
        32 - ctzll ((UINT32_MAX + 1) % 2 ^ 32) else 0) = 0 := if_neg (by simp)
    rw [setup_ttbcr_closed, hz]
    unfold TCR_T0SZ_FIELD
    by_cases hf : flags &&& XLAT_TABLE_NC ≠ 0
    · rw [if_pos hf]; decide
    · rw [if_neg hf]; decide
  · have hb := main 30 (by norm_num)
    norm_num at hb
    exact hb

/-- C1 witness: the 1 GiB space (`max_va = 2 ^ 30 - 1`) gives T0SZ 2. -/
theorem c1_t0sz_truncation_w :
    ∃ cfg, setup_mmu_cfg false true 0 0 0 (2 ^ 30 - 1) 0 = some cfg ∧
      TCR_T0SZ_FIELD cfg.tcr = 32 - 30 :=
  (c1_t0sz_truncation false 0 0 0 0).1 30 (by norm_num)

/-- C4: with the non-cacheable flag set the walk-attribute field of the
produced TTBCR is the non-shareable/non-cacheable encoding, without it the
inner-shareable/write-back-write-allocate encoding; the two encodings share
no set bits, and the two fields always differ. -/
theorem c4_walk_attr_encodings (a8 : Bool)
    (f1 f2 base_table max_pa max_va r : Nat) (cfg1 cfg2 : MmuCfg)
    (h1f : f1 &&& XLAT_TABLE_NC ≠ 0) (h2f : f2 &&& XLAT_TABLE_NC = 0)
    (h1 : setup_mmu_cfg a8 true f1 base_table max_pa max_va r = some cfg1)
    (h2 : setup_mmu_cfg a8 true f2 base_table max_pa max_va r = some cfg2) :
    TCR_WALK_ATTR_FIELD cfg1.tcr =
      (TTBCR_SH0_NON_SHAREABLE ||| TTBCR_RGN0_OUTER_NC ||| TTBCR_RGN0_INNER_NC) / 2 ^ 8 ∧
    TCR_WALK_ATTR_FIELD cfg2.tcr =
      (TTBCR_SH0_INNER_SHAREABLE ||| TTBCR_RGN0_OUTER_WBA ||| TTBCR_RGN0_INNER_WBA) / 2 ^ 8 ∧
    ((TTBCR_SH0_NON_SHAREABLE ||| TTBCR_RGN0_OUTER_NC ||| TTBCR_RGN0_INNER_NC) &&&
      (TTBCR_SH0_INNER_SHAREABLE ||| TTBCR_RGN0_OUTER_WBA ||| TTBCR_RGN0_INNER_WBA)) = 0 ∧
    TCR_WALK_ATTR_FIELD cfg1.tcr ≠ TCR_WALK_ATTR_FIELD cfg2.tcr := by
  have e1 : cfg1.tcr = 2155872256 + 0 +
      (if max_va ≠ UINT32_MAX then 32 - ctzll ((max_va + 1) % 2 ^ 32) else 0) := by
    rw [setup_mmu_cfg_inv a8 f1 base_table max_pa max_va r cfg1 h1]
    show setup_ttbcr f1 max_va = _
    rw [setup_ttbcr_closed, if_pos h1f]
  have e2 : cfg2.tcr = 2155872256 + 13568 +
      (if max_va ≠ UINT32_MAX then 32 - ctzll ((max_va + 1) % 2 ^ 32) else 0) := by
    rw [setup_mmu_cfg_inv a8 f2 base_table max_pa max_va r cfg2 h2]
    show setup_ttbcr f2 max_va = _
    rw [setup_ttbcr_closed, if_neg (by simp [h2f])]
  have hre1 : ((TTBCR_SH0_NON_SHAREABLE ||| TTBCR_RGN0_OUTER_NC |||
      TTBCR_RGN0_INNER_NC) : Nat) / 2 ^ 8 = 0 := by decide
  have hre2 : ((TTBCR_SH0_INNER_SHAREABLE ||| TTBCR_RGN0_OUTER_WBA |||
      TTBCR_RGN0_INNER_WBA) : Nat) / 2 ^ 8 = 53 := by decide
  have htle : (if max_va ≠ UINT32_MAX then 32 - ctzll ((max_va + 1) % 2 ^ 32) else 0)
      ≤ 32 := by split <;> omega
  refine ⟨?_, ?_, by decide, ?_⟩
  · rw [e1, hre1]; unfold TCR_WALK_ATTR_FIELD; omega
  · rw [e2, hre2]; unfold TCR_WALK_ATTR_FIELD; omega
  · rw [e1, e2]; unfold TCR_WALK_ATTR_FIELD; omega

/-- C4 witness: the theorem applied to concrete flagged and unflagged calls. -/
theorem c4_walk_attr_encodings_w :
    TCR_WALK_ATTR_FIELD (MmuCfg.tcr ⟨4457727, 2155872256, 0⟩) =
      (TTBCR_SH0_NON_SHAREABLE ||| TTBCR_RGN0_OUTER_NC ||| TTBCR_RGN0_INNER_NC) / 2 ^ 8 ∧
    TCR_WALK_ATTR_FIELD (MmuCfg.tcr ⟨4457727, 2155885824, 0⟩) =
      (TTBCR_SH0_INNER_SHAREABLE ||| TTBCR_RGN0_OUTER_WBA ||| TTBCR_RGN0_INNER_WBA) / 2 ^ 8 ∧
    ((TTBCR_SH0_NON_SHAREABLE ||| TTBCR_RGN0_OUTER_NC ||| TTBCR_RGN0_INNER_NC) &&&
      (TTBCR_SH0_INNER_SHAREABLE ||| TTBCR_RGN0_OUTER_WBA ||| TTBCR_RGN0_INNER_WBA)) = 0 ∧
    TCR_WALK_ATTR_FIELD (MmuCfg.tcr ⟨4457727, 2155872256, 0⟩) ≠
      TCR_WALK_ATTR_FIELD (MmuCfg.tcr ⟨4457727, 2155885824, 0⟩) :=
  c4_walk_attr_encodings false 2 0 0 0 4294967295 0
    ⟨4457727, 2155872256, 0⟩ ⟨4457727, 2155885824, 0⟩
    (by decide) (by decide) (by decide) (by decide)

end XlatAarch32
